import Mathlib

/-!
Shallow embedding of the Fix Execution Subsystem of the diagnostix-lite
repository: the Fix contract (`src/webui/core/fixes/base.py`), the catalog
(`src/webui/core/fixes/registry.py`), the audit database
(`src/webui/core/db.py`) and the orchestrator
(`src/webui/core/fixes/engine.py`).

Modelling conventions:
* Python values that flow through the audit serializer (`Dict[str, Any]`
  payloads, plain strings, `None`) are modelled by `Option PyVal`, with
  `Option.none` standing for Python `None`.
* A lifecycle method of a `Fix` (`detect`, `run`, `verify`) either returns a
  value or raises; its behaviour during one orchestrated invocation is an
  `Except String α` value, the `String` being `str(e)` of the raised
  exception.  `run_fix` calls each method at most once, so one behaviour
  value per method suffices.
* `platform.system()`, `platform.release()` and `platform.node()` are
  environment inputs gathered in `Env`.
* `datetime.now()` is a clock value carried by the database state; SQLite
  timestamps are modelled as naturals ordered like the ISO strings the code
  stores.
* The SQLite connection may fail a write with `sqlite3.Error`; the database
  state carries a schedule (`failPlan`) of outcomes for successive write
  attempts, the empty schedule meaning every write succeeds.
* Every `try/except Exception` of the Python code is translated by matching
  on the `Except` behaviour value, so the Lean functions are total exactly
  because the Python code catches at every lifecycle boundary.
-/

namespace Diagnostix

/-- A Python value as far as the audit serializer distinguishes them:
`json.dumps` is used for `dict` and `list` instances, `str(...)` otherwise
(`src/webui/core/db.py` lines 81-82). -/
inductive PyVal where
  | str : String → PyVal
  | dict : List (String × PyVal) → PyVal
  | list : List PyVal → PyVal

mutual

/-- Python json.dumps on the modelled values. -/
def jsonDumps : PyVal → String
  | PyVal.str s => "\"" ++ s ++ "\""
  | PyVal.dict kvs => "\x7b" ++ jsonDumpsFields kvs ++ "\x7d"
  | PyVal.list vs => "[" ++ jsonDumpsItems vs ++ "]"

def jsonDumpsFields : List (String × PyVal) → String
  | [] => ""
  | [(k, v)] => "\"" ++ k ++ "\": " ++ jsonDumps v
  | (k, v) :: rest => "\"" ++ k ++ "\": " ++ jsonDumps v ++ ", " ++ jsonDumpsFields rest

def jsonDumpsItems : List PyVal → String
  | [] => ""
  | [v] => jsonDumps v
  | v :: rest => jsonDumps v ++ ", " ++ jsonDumpsItems rest

end

/-- Python `str(...)` on the modelled values; `str` of a Python string is the
string itself. -/
def pyStr : PyVal → String
  | PyVal.str s => s
  | v => jsonDumps v

/-- State serialization of `Database.log_execution`:
`json.dumps(x) if isinstance(x, (dict, list)) else str(x)`; Python `None`
stringifies to the literal text `"None"` (`src/webui/core/db.py` lines
81-82). -/
def serializeState : Option PyVal → String
  | none => "None"
  | some (PyVal.dict kvs) => jsonDumps (PyVal.dict kvs)
  | some (PyVal.list vs) => jsonDumps (PyVal.list vs)
  | some v => pyStr v

/-- One row of the `fix_audit_log` table (`src/webui/core/db.py` lines
41-54).  The `before_state`, `after_state` and `error_message` columns are
nullable, hence `Option String`. -/
structure AuditRecord where
  timestamp : Nat
  hostname : String
  os : String
  fix_id : String
  condition_id : String
  before_state : Option String
  after_state : Option String
  result : String
  error_message : Option String
deriving DecidableEq

/-- State of the audit database: the stored rows in insertion order, the
current clock used for `datetime.now()`, and the schedule of outcomes of the
coming SQLite write attempts (`true` = the `INSERT` succeeds, `false` = the
connection raises `sqlite3.Error`; an exhausted schedule means success). -/
structure DbState where
  rows : List AuditRecord
  clock : Nat
  failPlan : List Bool
deriving DecidableEq

namespace Database

/-- Embedding of `Database.log_execution` (`src/webui/core/db.py` lines 62-97): build the
row, serialize the states, and attempt the `INSERT`; an `sqlite3.Error` is
caught and only logged, so the function never raises and on failure the
table is unchanged. -/
def log_execution (db : DbState) (fix_id : String) (hostname : String)
    (os_name : String) (result : String) (before_state : Option PyVal)
    (after_state : Option PyVal) (condition_id : String)
    (error_message : Option String) : DbState :=
  let row : AuditRecord :=
    { timestamp := db.clock
      hostname := hostname
      os := os_name
      fix_id := fix_id
      condition_id := condition_id
      before_state := some (serializeState before_state)
      after_state := some (serializeState after_state)
      result := result
      error_message := error_message }
  match db.failPlan with
  | [] => { db with rows := db.rows ++ [row] }
  | ok :: rest =>
    if ok then { rows := db.rows ++ [row], clock := db.clock, failPlan := rest }
    else { rows := db.rows, clock := db.clock, failPlan := rest }

/-- Insertion, descending by timestamp, into a list already sorted that way:
the order produced by `ORDER BY timestamp DESC` (ties in unspecified order;
this model keeps earlier rows first among ties). -/
def insertDesc (r : AuditRecord) : List AuditRecord → List AuditRecord
  | [] => [r]
  | x :: xs =>
    if x.timestamp < r.timestamp then r :: x :: xs else x :: insertDesc r xs

/-- Sort rows as `ORDER BY timestamp DESC` does. -/
def sortDesc : List AuditRecord → List AuditRecord
  | [] => []
  | x :: xs => insertDesc x (sortDesc xs)

/-- Embedding of `Database.get_history` (`src/webui/core/db.py` lines 99-110):
`SELECT * FROM fix_audit_log ORDER BY timestamp DESC LIMIT ?`.  SQLite
treats a negative `LIMIT` as "no limit", a non-negative one as a row bound. -/
def get_history (db : DbState) (limit : Int) : List AuditRecord :=
  if limit < 0 then sortDesc db.rows else (sortDesc db.rows).take limit.toNat

/-- Embedding of `Database.get_history` called with its default argument `limit=50`. -/
def get_history_default (db : DbState) : List AuditRecord :=
  get_history db 50

end Database

/-- The `FixResult` enum (`src/webui/core/fixes/base.py` lines 9-12). -/
inductive FixResult where
  | SUCCESS
  | FAILURE
  | SKIPPED
deriving DecidableEq

/-- The `.value` string of each `FixResult` member. -/
def FixResult.value : FixResult → String
  | FixResult.SUCCESS => "success"
  | FixResult.FAILURE => "failure"
  | FixResult.SKIPPED => "skipped"

/-- A registered `Fix` instance (`src/webui/core/fixes/base.py`): its static
metadata together with the behaviour its lifecycle methods will exhibit when
the orchestrator calls them (each an `Except String _`: `.ok` = returned
value, `.error e` = raised an exception with `str` text `e`). -/
structure Fix where
  id : String
  name : String
  description : String
  supported_platforms : List String
  requires_admin : Bool
  is_safe : Bool
  detect : Except String Bool
  run : Except String PyVal
  verify : Except String Bool

/-- Python str.lower(), computably: platform identifiers are ASCII, for
which lowering is per-character. -/
def strLower (s : String) : String :=
  String.mk (s.data.map Char.toLower)

/-- Embedding of `Fix.check_platform_compatibility` (`src/webui/core/fixes/base.py`
lines 28-31): case-insensitive membership of `platform.system().lower()` in
`supported_platforms`. -/
def Fix.check_platform_compatibility (f : Fix) (system : String) : Bool :=
  (f.supported_platforms.map strLower).contains (strLower system)

/-- Host environment values returned by the `platform` module. -/
structure Env where
  system : String
  release : String
  node : String
deriving DecidableEq

namespace FixRegistry

/-- Python dict assignment `cls._fixes[id] = inst`: overwrites in place when
the key exists (keeping its position, as Python dicts do), appends
otherwise. -/
def dictSet (fixes : List (String × Fix)) (key : String) (inst : Fix) :
    List (String × Fix) :=
  match fixes with
  | [] => [(key, inst)]
  | (k, v) :: rest =>
    if k == key then (k, inst) :: rest else (k, v) :: dictSet rest key inst

/-- Embedding of `FixRegistry.register` (`src/webui/core/fixes/registry.py` lines
16-26): construct one instance from the class and insert it under its id;
the whole body sits in `try/except Exception`, so a raising constructor is
caught, logged, and leaves the mapping untouched.  The constructor's
behaviour is an `Except String Fix` (`.error` = the constructor raised). -/
def register (fixes : List (String × Fix)) (fix_cls : Except String Fix) :
    List (String × Fix) :=
  match fix_cls with
  | Except.error _ => fixes
  | Except.ok inst => dictSet fixes inst.id inst

/-- Embedding of `FixRegistry.get_fix` (`src/webui/core/fixes/registry.py` lines 28-31):
`cls._fixes.get(fix_id)`. -/
def get_fix (fixes : List (String × Fix)) (fix_id : String) : Option Fix :=
  (fixes.find? (fun p => p.1 == fix_id)).map Prod.snd

end FixRegistry

/-- The dict `FixEngine.run_fix` returns: `success` and `message` are always
present; `skipped` and `details` only on the paths that set them. -/
structure RunResult where
  success : Bool
  message : String
  skipped : Option Bool
  details : Option PyVal

/-- Lifecycle methods of the `Fix` whose invocation `run_fix` can trigger,
in the order called. -/
inductive MethodCall where
  | platformCheck
  | detect
  | run
  | verify
deriving DecidableEq

namespace FixEngine

/-- Embedding of `FixEngine.run_fix` (`src/webui/core/fixes/engine.py` lines 13-92),
returning the result dict, the database state after the at-most-one
`log_execution` call, and the trace of `Fix` methods invoked.  Every
lifecycle call sits inside `try/except Exception` in the source, matched
here by case analysis on the behaviour value, so the translation is total:
no exception escapes. -/
def run_fix (fixes : List (String × Fix)) (env : Env) (db : DbState)
    (fix_id : String) (hostname0 : Option String) :
    RunResult × DbState × List MethodCall :=
  let hostname := match hostname0 with
    | none => env.node
    | some h => h
  let os_name := env.system ++ " " ++ env.release
  match FixRegistry.get_fix fixes fix_id with
  | none =>
    ({ success := false
       message := "Fix ID '" ++ fix_id ++ "' not found."
       skipped := none
       details := none }, db, [])
  | some fix =>
    -- 1. Platform Check
    if !fix.check_platform_compatibility env.system then
      let msg := "Fix not supported on this platform (" ++ env.system ++ ")."
      let db1 := Database.log_execution db fix_id hostname os_name
        FixResult.SKIPPED.value none none "manual" (some msg)
      ({ success := false, message := msg, skipped := none, details := none },
        db1, [MethodCall.platformCheck])
    else
      -- 2. Detect (Pre-check)
      match fix.detect with
      | Except.error e =>
        let msg := "Detection failed: " ++ e
        let db1 := Database.log_execution db fix_id hostname os_name
          FixResult.FAILURE.value none none "manual" (some msg)
        ({ success := false, message := msg, skipped := none, details := none },
          db1, [MethodCall.platformCheck, MethodCall.detect])
      | Except.ok detected =>
        if !detected then
          let msg := "Condition not detected. Fix is not needed."
          let db1 := Database.log_execution db fix_id hostname os_name
            FixResult.SKIPPED.value none none "manual" (some msg)
          ({ success := true, message := msg, skipped := some true,
             details := none }, db1,
            [MethodCall.platformCheck, MethodCall.detect])
        else
          let before_state : Option PyVal := some (PyVal.str "Condition detected")
          -- 3. Run
          match fix.run with
          | Except.error e =>
            let db1 := Database.log_execution db fix_id hostname os_name
              FixResult.FAILURE.value before_state none "manual" (some e)
            ({ success := false, message := "Execution failed: " ++ e
               skipped := none, details := none }, db1,
              [MethodCall.platformCheck, MethodCall.detect, MethodCall.run])
          | Except.ok result_data =>
            -- 4. Verify
            match fix.verify with
            | Except.ok is_verified =>
              let result_status := if is_verified then FixResult.SUCCESS.value
                else FixResult.FAILURE.value
              let verif_msg := if is_verified then "Fix verified successfully."
                else "Verification failed after execution."
              let db1 := Database.log_execution db fix_id hostname os_name
                result_status before_state (some result_data) "manual"
                (if is_verified then none else some "Verification failed")
              ({ success := is_verified, message := verif_msg, skipped := none
                 details := some result_data }, db1,
                [MethodCall.platformCheck, MethodCall.detect, MethodCall.run,
                  MethodCall.verify])
            | Except.error e =>
              let msg := "Verification process crashed: " ++ e
              let db1 := Database.log_execution db fix_id hostname os_name
                FixResult.FAILURE.value before_state (some result_data) "manual"
                (some msg)
              ({ success := false, message := msg, skipped := none
                 details := none }, db1,
                [MethodCall.platformCheck, MethodCall.detect, MethodCall.run,
                  MethodCall.verify])

end FixEngine

/-! Concrete fixtures used by the witness and counterexample theorems. -/

/-- Sample fix whose whole lifecycle succeeds (the `flush_dns` scenario). -/
def sampleFix : Fix :=
  { id := "flush_dns"
    name := "Flush DNS"
    description := "Flush the DNS cache."
    supported_platforms := ["windows", "linux", "darwin"]
    requires_admin := false
    is_safe := true
    detect := Except.ok true
    run := Except.ok (PyVal.dict [("output", PyVal.str "ok")])
    verify := Except.ok true }

/-- Sample host environment: a Linux machine. -/
def sampleEnv : Env := { system := "Linux", release := "6.0", node := "host1" }

/-- Sample host environment: a Windows machine. -/
def winEnv : Env := { system := "Windows", release := "10", node := "host2" }

/-- Sample initial database: empty table, clock at 100, every write
succeeding. -/
def sampleDb : DbState := { rows := [], clock := 100, failPlan := [] }

/-- Catalog holding only `sampleFix`. -/
def sampleReg : List (String × Fix) := [("flush_dns", sampleFix)]

/-- Fix whose `detect()` returns `False`. -/
def notNeededFix : Fix := { sampleFix with id := "not_needed", detect := Except.ok false }

/-- Catalog holding only `notNeededFix`. -/
def regNotNeeded : List (String × Fix) := [("not_needed", notNeededFix)]

/-- Fix whose `run()` raises an exception with text `disk full`. -/
def runFailFix : Fix := { sampleFix with id := "broken_run", run := Except.error "disk full" }

/-- Catalog holding only `runFailFix`. -/
def regRunFail : List (String × Fix) := [("broken_run", runFailFix)]

/-- Fix whose `verify()` returns `False` after a successful `run()`. -/
def verifyFalseFix : Fix := { sampleFix with id := "verify_false", verify := Except.ok false }

/-- Catalog holding only `verifyFalseFix`. -/
def regVerifyFalse : List (String × Fix) := [("verify_false", verifyFalseFix)]

/-- Fix supported only on Linux. -/
def linuxOnlyFix : Fix := { sampleFix with id := "linux_only", supported_platforms := ["linux"] }

/-- Catalog holding only `linuxOnlyFix`. -/
def regLinuxOnly : List (String × Fix) := [("linux_only", linuxOnlyFix)]

/-- The audit row the successful `flush_dns` scenario writes. -/
def recSampleSuccess : AuditRecord :=
  { timestamp := 100
    hostname := "host1"
    os := "Linux 6.0"
    fix_id := "flush_dns"
    condition_id := "manual"
    before_state := some "Condition detected"
    after_state := some "\x7b\"output\": \"ok\"\x7d"
    result := "success"
    error_message := none }

/-- An audit row with timestamp 5. -/
def tieRecA : AuditRecord :=
  { timestamp := 5, hostname := "h", os := "o", fix_id := "a"
    condition_id := "manual", before_state := none, after_state := none
    result := "success", error_message := none }

/-- A second audit row with the same timestamp 5. -/
def tieRecB : AuditRecord := { tieRecA with fix_id := "b" }

/-- A database state holding two rows with equal timestamps, as produced by
two executions logged within the same `datetime.now()` tick. -/
def tieDb : DbState := { rows := [tieRecA, tieRecB], clock := 0, failPlan := [] }

/-! The claims. -/

/-- C1: for every invocation of `FixEngine.run_fix` with a fix id registered
in the catalog, exactly one audit row is appended (whichever lifecycle stage
terminated the invocation — the quantification over the fix covers every
behaviour of `detect`, `run` and `verify`), provided the SQLite write
succeeds; for an unregistered fix id no row is appended at all. -/
theorem C1_exactly_one_audit_record (fixes : List (String × Fix)) (env : Env)
    (db : DbState) (fix_id : String) (host : Option String)
    (hplan : db.failPlan = []) :
    (∀ fix, FixRegistry.get_fix fixes fix_id = some fix →
      (FixEngine.run_fix fixes env db fix_id host).2.1.rows.length =
        db.rows.length + 1)
    ∧ (FixRegistry.get_fix fixes fix_id = none →
      (FixEngine.run_fix fixes env db fix_id host).2.1.rows = db.rows) := by
  constructor
  · intro fix hf
    cases hc : fix.check_platform_compatibility env.system with
    | false => simp [FixEngine.run_fix, hf, hc, Database.log_execution, hplan]
    | true =>
      cases hd : fix.detect with
      | error e => simp [FixEngine.run_fix, hf, hc, hd, Database.log_execution, hplan]
      | ok detected =>
        cases detected with
        | false => simp [FixEngine.run_fix, hf, hc, hd, Database.log_execution, hplan]
        | true =>
          cases hr : fix.run with
          | error e => simp [FixEngine.run_fix, hf, hc, hd, hr, Database.log_execution, hplan]
          | ok payload =>
            cases hv : fix.verify with
            | error e =>
              simp [FixEngine.run_fix, hf, hc, hd, hr, hv, Database.log_execution, hplan]
            | ok verified =>
              cases verified <;>
                simp [FixEngine.run_fix, hf, hc, hd, hr, hv, Database.log_execution, hplan]
  · intro hf
    simp [FixEngine.run_fix, hf]

/-- Witness for C1: the all-success scenario appends one row; an unknown id
appends none. -/
theorem C1_exactly_one_audit_record_witness :
    ((FixEngine.run_fix sampleReg sampleEnv sampleDb "flush_dns" none).2.1.rows.length =
      sampleDb.rows.length + 1)
    ∧ ((FixEngine.run_fix sampleReg sampleEnv sampleDb "missing_fix" none).2.1.rows =
      sampleDb.rows) :=
  ⟨(C1_exactly_one_audit_record sampleReg sampleEnv sampleDb "flush_dns" none rfl).1
      sampleFix rfl,
    (C1_exactly_one_audit_record sampleReg sampleEnv sampleDb "missing_fix" none rfl).2 rfl⟩

/-- C2: for every catalog, environment, database state and fix id — hence for
every registered fix and every behaviour of its `detect`, `run` and `verify`,
including each of them raising an arbitrary exception — `run_fix` returns a
structured `RunResult` (so, the translation being total exactly where the
source catches `Exception`, no exception propagates) whose `success` field is
a `Bool` by construction and whose `message` is a non-empty text. -/
theorem C2_uniform_nonthrowing_result (fixes : List (String × Fix)) (env : Env)
    (db : DbState) (fix_id : String) (host : Option String) :
    0 < (FixEngine.run_fix fixes env db fix_id host).1.message.length := by
  cases hf : FixRegistry.get_fix fixes fix_id with
  | none =>
    simp [FixEngine.run_fix, hf]
    exact Or.inl (Or.inl (by decide))
  | some fix =>
    cases hc : fix.check_platform_compatibility env.system with
    | false =>
      simp [FixEngine.run_fix, hf, hc]
      exact Or.inl (Or.inl (by decide))
    | true =>
      cases hd : fix.detect with
      | error e =>
        simp [FixEngine.run_fix, hf, hc, hd]
        exact Or.inl (by decide)
      | ok detected =>
        cases detected with
        | false =>
          simp [FixEngine.run_fix, hf, hc, hd]
          decide
        | true =>
          cases hr : fix.run with
          | error e =>
            simp [FixEngine.run_fix, hf, hc, hd, hr]
            exact Or.inl (by decide)
          | ok payload =>
            cases hv : fix.verify with
            | error e =>
              simp [FixEngine.run_fix, hf, hc, hd, hr, hv]
              exact Or.inl (by decide)
            | ok verified =>
              cases verified <;> simp [FixEngine.run_fix, hf, hc, hd, hr, hv] <;> decide

/-- C3: for every registered, platform-compatible fix whose `detect()`
returns `False`, `run_fix` never invokes `run()` or `verify()`, appends one
audit row with result `skipped`, and returns `success=true` with
`skipped=true`. -/
theorem C3_detect_false_skips (fixes : List (String × Fix)) (env : Env)
    (db : DbState) (fix_id : String) (host : Option String) (fix : Fix)
    (hf : FixRegistry.get_fix fixes fix_id = some fix)
    (hc : fix.check_platform_compatibility env.system = true)
    (hd : fix.detect = Except.ok false)
    (hplan : db.failPlan = []) :
    MethodCall.run ∉ (FixEngine.run_fix fixes env db fix_id host).2.2
    ∧ MethodCall.verify ∉ (FixEngine.run_fix fixes env db fix_id host).2.2
    ∧ (FixEngine.run_fix fixes env db fix_id host).1.success = true
    ∧ (FixEngine.run_fix fixes env db fix_id host).1.skipped = some true
    ∧ ∃ rec, (FixEngine.run_fix fixes env db fix_id host).2.1.rows = db.rows ++ [rec]
        ∧ rec.result = "skipped" := by
  refine ⟨?_, ?_, ?_, ?_, ?_⟩ <;>
    simp [FixEngine.run_fix, hf, hc, hd, Database.log_execution, hplan,
      FixResult.value]

/-- Witness for C3: a registered fix whose condition is not detected on a
compatible host. -/
theorem C3_detect_false_skips_witness :
    MethodCall.run ∉ (FixEngine.run_fix regNotNeeded sampleEnv sampleDb "not_needed" none).2.2
    ∧ MethodCall.verify ∉ (FixEngine.run_fix regNotNeeded sampleEnv sampleDb "not_needed" none).2.2
    ∧ (FixEngine.run_fix regNotNeeded sampleEnv sampleDb "not_needed" none).1.success = true
    ∧ (FixEngine.run_fix regNotNeeded sampleEnv sampleDb "not_needed" none).1.skipped = some true
    ∧ ∃ rec, (FixEngine.run_fix regNotNeeded sampleEnv sampleDb "not_needed" none).2.1.rows =
          sampleDb.rows ++ [rec]
        ∧ rec.result = "skipped" :=
  C3_detect_false_skips regNotNeeded sampleEnv sampleDb "not_needed" none
    notNeededFix rfl (by decide) rfl rfl

/-- C4 counterexample: with `detect()` true and `run()` raising `disk full`,
the single appended audit row does not have an absent `after_state`: the
source serializes the absent Python `None` with `str`, storing the literal
text `None` in the column. -/
theorem C4_counterexample_after_state_not_absent :
    ((FixEngine.run_fix regRunFail sampleEnv sampleDb "broken_run" none).2.1.rows.map
        AuditRecord.after_state = [some "None"])
    ∧ some "None" ≠ (none : Option String) := by
  exact ⟨by decide, by simp⟩

/-- C4 as amended: for every registered, platform-compatible fix whose
`detect()` returns true and whose `run()` raises, `run_fix` never invokes
`verify()`, returns `success=false` with a message containing the exception
text, and the single appended row has result `failure`, `before_state` set to
the condition marker, `error_message` equal to the exception text, and
`after_state` holding the stringified absent payload `"None"` instead of
being absent. -/
theorem C4_amended_run_raises (fixes : List (String × Fix)) (env : Env)
    (db : DbState) (fix_id : String) (host : Option String) (fix : Fix)
    (e : String)
    (hf : FixRegistry.get_fix fixes fix_id = some fix)
    (hc : fix.check_platform_compatibility env.system = true)
    (hd : fix.detect = Except.ok true)
    (hr : fix.run = Except.error e)
    (hplan : db.failPlan = []) :
    MethodCall.verify ∉ (FixEngine.run_fix fixes env db fix_id host).2.2
    ∧ (FixEngine.run_fix fixes env db fix_id host).1.success = false
    ∧ (FixEngine.run_fix fixes env db fix_id host).1.message = "Execution failed: " ++ e
    ∧ ∃ rec, (FixEngine.run_fix fixes env db fix_id host).2.1.rows = db.rows ++ [rec]
        ∧ rec.result = "failure"
        ∧ rec.before_state = some "Condition detected"
        ∧ rec.error_message = some e
        ∧ rec.after_state = some "None" := by
  refine ⟨?_, ?_, ?_, ?_⟩ <;>
    simp [FixEngine.run_fix, hf, hc, hd, hr, Database.log_execution, hplan,
      FixResult.value, serializeState, pyStr]

/-- Witness for the amended C4: the `disk full` scenario. -/
theorem C4_amended_run_raises_witness :
    MethodCall.verify ∉ (FixEngine.run_fix regRunFail sampleEnv sampleDb "broken_run" none).2.2
    ∧ (FixEngine.run_fix regRunFail sampleEnv sampleDb "broken_run" none).1.success = false
    ∧ (FixEngine.run_fix regRunFail sampleEnv sampleDb "broken_run" none).1.message =
        "Execution failed: " ++ "disk full"
    ∧ ∃ rec, (FixEngine.run_fix regRunFail sampleEnv sampleDb "broken_run" none).2.1.rows =
          sampleDb.rows ++ [rec]
        ∧ rec.result = "failure"
        ∧ rec.before_state = some "Condition detected"
        ∧ rec.error_message = some "disk full"
        ∧ rec.after_state = some "None" :=
  C4_amended_run_raises regRunFail sampleEnv sampleDb "broken_run" none
    runFailFix "disk full" rfl (by decide) rfl rfl rfl

/-- C5: for every registered, platform-compatible fix whose `detect()`
returns true, whose `run()` returns a payload, and whose `verify()` returns
`False`, `run_fix` returns `success=false` and the single appended row has
result `failure` with `before_state` set and `after_state` holding the
serialized run payload. -/
theorem C5_verify_false_is_failure (fixes : List (String × Fix)) (env : Env)
    (db : DbState) (fix_id : String) (host : Option String) (fix : Fix)
    (payload : PyVal)
    (hf : FixRegistry.get_fix fixes fix_id = some fix)
    (hc : fix.check_platform_compatibility env.system = true)
    (hd : fix.detect = Except.ok true)
    (hr : fix.run = Except.ok payload)
    (hv : fix.verify = Except.ok false)
    (hplan : db.failPlan = []) :
    (FixEngine.run_fix fixes env db fix_id host).1.success = false
    ∧ ∃ rec, (FixEngine.run_fix fixes env db fix_id host).2.1.rows = db.rows ++ [rec]
        ∧ rec.result = "failure"
        ∧ rec.before_state = some "Condition detected"
        ∧ rec.after_state = some (serializeState (some payload)) := by
  refine ⟨?_, ?_⟩ <;>
    simp [FixEngine.run_fix, hf, hc, hd, hr, hv, Database.log_execution, hplan,
      FixResult.value, serializeState, pyStr]

/-- Witness for C5: a fix that runs but fails verification. -/
theorem C5_verify_false_is_failure_witness :
    (FixEngine.run_fix regVerifyFalse sampleEnv sampleDb "verify_false" none).1.success = false
    ∧ ∃ rec, (FixEngine.run_fix regVerifyFalse sampleEnv sampleDb "verify_false" none).2.1.rows =
          sampleDb.rows ++ [rec]
        ∧ rec.result = "failure"
        ∧ rec.before_state = some "Condition detected"
        ∧ rec.after_state =
            some (serializeState (some (PyVal.dict [("output", PyVal.str "ok")]))) :=
  C5_verify_false_is_failure regVerifyFalse sampleEnv sampleDb "verify_false" none
    verifyFalseFix (PyVal.dict [("output", PyVal.str "ok")]) rfl (by decide) rfl rfl rfl rfl

/-- C7: the `RunResult` value returned by `run_fix` does not depend on the
schedule of SQLite write outcomes: a persistence failure during the audit
append (caught inside `Database.log_execution`, which is why it also cannot
propagate) never changes any field of the returned result. -/
theorem C7_persistence_failure_never_changes_result (fixes : List (String × Fix))
    (env : Env) (db : DbState) (fix_id : String) (host : Option String)
    (plan : List Bool) :
    (FixEngine.run_fix fixes env
        { rows := db.rows, clock := db.clock, failPlan := plan } fix_id host).1 =
      (FixEngine.run_fix fixes env db fix_id host).1 := by
  cases hf : FixRegistry.get_fix fixes fix_id with
  | none => simp [FixEngine.run_fix, hf]
  | some fix =>
    cases hc : fix.check_platform_compatibility env.system with
    | false => simp [FixEngine.run_fix, hf, hc]
    | true =>
      cases hd : fix.detect with
      | error e => simp [FixEngine.run_fix, hf, hc, hd]
      | ok detected =>
        cases detected with
        | false => simp [FixEngine.run_fix, hf, hc, hd]
        | true =>
          cases hr : fix.run with
          | error e => simp [FixEngine.run_fix, hf, hc, hd, hr]
          | ok payload =>
            cases hv : fix.verify with
            | error e => simp [FixEngine.run_fix, hf, hc, hd, hr, hv]
            | ok verified =>
              cases verified <;> simp [FixEngine.run_fix, hf, hc, hd, hr, hv]

/-- C10: registering a fix class whose constructor raises leaves the
catalog's mapping completely unchanged; the source wraps the whole body in
`try/except Exception`, which is why `register` is total here and no
exception propagates to the caller. -/
theorem C10_register_raising_constructor_is_noop (fixes : List (String × Fix))
    (e : String) :
    FixRegistry.register fixes (Except.error e) = fixes := rfl

/-- C6 counterexample: a fix with `supported_platforms=["linux"]` run on a
Windows host returns a result whose `skipped` flag is absent, not `true`:
the platform-incompatible branch of `run_fix` returns only `success` and
`message`. -/
theorem C6_counterexample_no_skipped_flag :
    (FixEngine.run_fix regLinuxOnly winEnv sampleDb "linux_only" none).1.skipped ≠
      some true := by
  decide

/-- C6 as amended: for every registered fix whose platform check fails,
`run_fix` invokes none of `detect()`, `run()`, `verify()`, appends one audit
row with result `skipped`, and returns `success=false` with no `skipped`
flag in the returned mapping. -/
theorem C6_amended_platform_incompatible (fixes : List (String × Fix)) (env : Env)
    (db : DbState) (fix_id : String) (host : Option String) (fix : Fix)
    (hf : FixRegistry.get_fix fixes fix_id = some fix)
    (hc : fix.check_platform_compatibility env.system = false)
    (hplan : db.failPlan = []) :
    MethodCall.detect ∉ (FixEngine.run_fix fixes env db fix_id host).2.2
    ∧ MethodCall.run ∉ (FixEngine.run_fix fixes env db fix_id host).2.2
    ∧ MethodCall.verify ∉ (FixEngine.run_fix fixes env db fix_id host).2.2
    ∧ (FixEngine.run_fix fixes env db fix_id host).1.success = false
    ∧ (FixEngine.run_fix fixes env db fix_id host).1.skipped = none
    ∧ ∃ rec, (FixEngine.run_fix fixes env db fix_id host).2.1.rows = db.rows ++ [rec]
        ∧ rec.result = "skipped" := by
  refine ⟨?_, ?_, ?_, ?_, ?_, ?_⟩ <;>
    simp [FixEngine.run_fix, hf, hc, Database.log_execution, hplan, FixResult.value]

/-- Witness for the amended C6: the Linux-only fix on a Windows host. -/
theorem C6_amended_platform_incompatible_witness :
    MethodCall.detect ∉ (FixEngine.run_fix regLinuxOnly winEnv sampleDb "linux_only" none).2.2
    ∧ MethodCall.run ∉ (FixEngine.run_fix regLinuxOnly winEnv sampleDb "linux_only" none).2.2
    ∧ MethodCall.verify ∉ (FixEngine.run_fix regLinuxOnly winEnv sampleDb "linux_only" none).2.2
    ∧ (FixEngine.run_fix regLinuxOnly winEnv sampleDb "linux_only" none).1.success = false
    ∧ (FixEngine.run_fix regLinuxOnly winEnv sampleDb "linux_only" none).1.skipped = none
    ∧ ∃ rec, (FixEngine.run_fix regLinuxOnly winEnv sampleDb "linux_only" none).2.1.rows =
          sampleDb.rows ++ [rec]
        ∧ rec.result = "skipped" :=
  C6_amended_platform_incompatible regLinuxOnly winEnv sampleDb "linux_only" none
    linuxOnlyFix rfl (by decide) rfl

/-- Helper: if a `log_execution` call left the table equal to the old table
with one row appended, that row carries the `result` and `error_message`
arguments of the call. -/
theorem log_execution_appended (db : DbState) (fid hn osn res : String)
    (b a : Option PyVal) (cid : String) (em : Option String) (rec : AuditRecord)
    (h : (Database.log_execution db fid hn osn res b a cid em).rows =
      db.rows ++ [rec]) :
    rec.result = res ∧ rec.error_message = em := by
  unfold Database.log_execution at h
  cases hp : db.failPlan with
  | nil =>
    simp [hp] at h
    subst h
    exact ⟨rfl, rfl⟩
  | cons ok rest =>
    cases ok with
    | true =>
      simp [hp] at h
      subst h
      exact ⟨rfl, rfl⟩
    | false =>
      simp [hp] at h

/-- C8 counterexample: the platform-incompatibility skip writes a row with
`result = skipped` and a present `error_message`, although the invocation
invoked no lifecycle method beyond the pure platform check — so the skip was
not caused by any error, refuting "`errorMessage` present only if the result
is `failure` or the skip was caused by an error". -/
theorem C8_counterexample_skip_without_error_has_message :
    ((FixEngine.run_fix regLinuxOnly winEnv sampleDb "linux_only" none).2.2 =
      [MethodCall.platformCheck])
    ∧ ((FixEngine.run_fix regLinuxOnly winEnv sampleDb "linux_only" none).2.1.rows.map
        (fun r => (r.result, r.error_message.isSome))) = [("skipped", true)] :=
  ⟨by decide, by decide⟩

/-- C8 as amended: every audit row appended by `run_fix` has `error_message`
present if and only if its `result` is not `success` — that is, on every
`failure` and on every `skipped` row, whether or not the skip was caused by
an error. -/
theorem C8_amended_error_message_iff_not_success (fixes : List (String × Fix))
    (env : Env) (db : DbState) (fix_id : String) (host : Option String)
    (rec : AuditRecord)
    (h : (FixEngine.run_fix fixes env db fix_id host).2.1.rows = db.rows ++ [rec]) :
    rec.error_message.isSome = true ↔ rec.result ≠ "success" := by
  cases hf : FixRegistry.get_fix fixes fix_id with
  | none =>
    simp [FixEngine.run_fix, hf] at h
  | some fix =>
    cases hc : fix.check_platform_compatibility env.system with
    | false =>
      simp only [FixEngine.run_fix, hf, hc, Bool.not_false, if_true] at h
      obtain ⟨h1, h2⟩ := log_execution_appended _ _ _ _ _ _ _ _ _ _ h
      rw [h1, h2]
      simp [FixResult.value]
    | true =>
      cases hd : fix.detect with
      | error e =>
        simp only [FixEngine.run_fix, hf, hc, hd, Bool.not_true, if_false] at h
        obtain ⟨h1, h2⟩ := log_execution_appended _ _ _ _ _ _ _ _ _ _ h
        rw [h1, h2]
        simp [FixResult.value]
      | ok detected =>
        cases detected with
        | false =>
          simp only [FixEngine.run_fix, hf, hc, hd, Bool.not_true, if_false,
            Bool.not_false, if_true] at h
          obtain ⟨h1, h2⟩ := log_execution_appended _ _ _ _ _ _ _ _ _ _ h
          rw [h1, h2]
          simp [FixResult.value]
        | true =>
          cases hr : fix.run with
          | error e =>
            simp only [FixEngine.run_fix, hf, hc, hd, hr, Bool.not_true, if_false] at h
            obtain ⟨h1, h2⟩ := log_execution_appended _ _ _ _ _ _ _ _ _ _ h
            rw [h1, h2]
            simp [FixResult.value]
          | ok payload =>
            cases hv : fix.verify with
            | error e =>
              simp only [FixEngine.run_fix, hf, hc, hd, hr, hv, Bool.not_true,
                if_false] at h
              obtain ⟨h1, h2⟩ := log_execution_appended _ _ _ _ _ _ _ _ _ _ h
              rw [h1, h2]
              simp [FixResult.value]
            | ok verified =>
              cases verified with
              | false =>
                simp only [FixEngine.run_fix, hf, hc, hd, hr, hv, Bool.not_true,
                  if_false] at h
                obtain ⟨h1, h2⟩ := log_execution_appended _ _ _ _ _ _ _ _ _ _ h
                rw [h1, h2]
                simp [FixResult.value]
              | true =>
                simp only [FixEngine.run_fix, hf, hc, hd, hr, hv, Bool.not_true,
                  if_false] at h
                obtain ⟨h1, h2⟩ := log_execution_appended _ _ _ _ _ _ _ _ _ _ h
                rw [h1, h2]
                simp [FixResult.value]

/-- Witness for the amended C8: the successful `flush_dns` run appends its
row with `error_message` absent and `result = success`. -/
theorem C8_amended_error_message_iff_not_success_witness :
    ((FixEngine.run_fix sampleReg sampleEnv sampleDb "flush_dns" none).2.1.rows =
      sampleDb.rows ++ [recSampleSuccess])
    ∧ (recSampleSuccess.error_message.isSome = true ↔
        recSampleSuccess.result ≠ "success") :=
  ⟨by decide,
    C8_amended_error_message_iff_not_success sampleReg sampleEnv sampleDb
      "flush_dns" none recSampleSuccess (by decide)⟩

/-- Helper: membership in an `insertDesc` result. -/
theorem mem_insertDesc (r x : AuditRecord) (l : List AuditRecord) :
    x ∈ Database.insertDesc r l ↔ x = r ∨ x ∈ l := by
  induction l with
  | nil => simp [Database.insertDesc]
  | cons y ys ih =>
    simp only [Database.insertDesc]
    by_cases hy : y.timestamp < r.timestamp
    · simp [hy]
    · simp [hy, ih]
      tauto

/-- Helper: `insertDesc` preserves sortedness by non-increasing timestamp. -/
theorem insertDesc_pairwise (r : AuditRecord) (l : List AuditRecord)
    (h : l.Pairwise (fun a b => b.timestamp ≤ a.timestamp)) :
    (Database.insertDesc r l).Pairwise (fun a b => b.timestamp ≤ a.timestamp) := by
  induction l with
  | nil => simp [Database.insertDesc]
  | cons y ys ih =>
    rw [List.pairwise_cons] at h
    obtain ⟨hy, hys⟩ := h
    simp only [Database.insertDesc]
    by_cases hlt : y.timestamp < r.timestamp
    · simp only [hlt, if_true]
      rw [List.pairwise_cons]
      refine ⟨?_, ?_⟩
      · intro b hb
        rw [List.mem_cons] at hb
        rcases hb with hb | hb
        · subst hb
          exact le_of_lt hlt
        · exact le_trans (hy b hb) (le_of_lt hlt)
      · rw [List.pairwise_cons]
        exact ⟨hy, hys⟩
    · simp only [hlt, if_false]
      rw [List.pairwise_cons]
      refine ⟨?_, ih hys⟩
      intro b hb
      rw [mem_insertDesc] at hb
      rcases hb with hb | hb
      · subst hb
        exact Nat.le_of_not_lt hlt
      · exact hy b hb

/-- Helper: the rows sorted as by `ORDER BY timestamp DESC` are pairwise
non-increasing in timestamp. -/
theorem sortDesc_pairwise (l : List AuditRecord) :
    (Database.sortDesc l).Pairwise (fun a b => b.timestamp ≤ a.timestamp) := by
  induction l with
  | nil => simp [Database.sortDesc]
  | cons x xs ih => exact insertDesc_pairwise x _ ih

/-- C9 counterexample: on a log state holding two rows with equal timestamps
(two executions logged within one clock tick), `get_history 2` returns both
rows, and the returned sequence is not strictly ordered by timestamp
descending. -/
theorem C9_counterexample_not_strict :
    ¬ (Database.get_history tieDb 2).Pairwise
        (fun a b => b.timestamp < a.timestamp) := by
  decide

/-- C9 as amended: for every non-negative limit `n` and every state of the
audit log, `get_history` returns at most `n` rows, ordered by timestamp
non-increasing (newest first, non-strictly: rows with equal timestamps may
tie), and the limit defaults to 50 when unspecified. -/
theorem C9_amended_history_bounded_sorted (db : DbState) (n : Int) (h : 0 ≤ n) :
    (Database.get_history db n).length ≤ n.toNat
    ∧ (Database.get_history db n).Pairwise (fun a b => b.timestamp ≤ a.timestamp)
    ∧ Database.get_history_default db = Database.get_history db 50 := by
  refine ⟨?_, ?_, rfl⟩
  · simp [Database.get_history, not_lt.mpr h]
  · simp [Database.get_history, not_lt.mpr h]
    exact (sortDesc_pairwise db.rows).sublist (List.take_sublist _ _)

/-- Witness for the amended C9: the tied log with limit 2. -/
theorem C9_amended_history_bounded_sorted_witness :
    (Database.get_history tieDb 2).length ≤ (2 : Int).toNat
    ∧ (Database.get_history tieDb 2).Pairwise (fun a b => b.timestamp ≤ a.timestamp)
    ∧ Database.get_history_default tieDb = Database.get_history tieDb 50 :=
  C9_amended_history_bounded_sorted tieDb 2 (by decide)

end Diagnostix
